import Mathlib

/-
Verification of the DFACS relay emulator core (src/relay_emulator.py,
class RelayEmulatorApp) against its specification.

The embedding below translates the stateful methods of RelayEmulatorApp
into pure Lean functions.  The mutable fields of the Python object that
make up the controller state (lock_state, rte_count, door_state,
unlock_start_time, unlock_duration, rte_override_active,
rte_override_start_time, rte_override_duration) become the structure
EmuState.  The live-editable UI configuration variables
(billing_partner_var, aux_type_var, aux_normally_open_var,
rte_count_enabled_var) are read afresh by every handler, so each
embedded operation takes a Config argument standing for the values of
those variables at the moment the operation runs.  The wall clock
(time.time() * 1000, milliseconds) becomes an explicit `now : Int`
argument, and the serial port becomes a Bool `ser` (port open or not)
plus an explicit list of the lines written during the operation.
Methods that in Python mutate `self` and write to the port here return
`EmuState × List String`.
-/

namespace RelayEmu

/-- Billing partner dialects, the values of billing_partner_var
(a read-only combobox restricted to exactly these three). -/
inductive BillingPartner where
  | ABC
  | PEAK
  | DFACS
deriving DecidableEq, Repr

/-- Auxiliary input types, the values of aux_type_var
(a read-only combobox restricted to exactly these four). -/
inductive AuxType where
  | RTE
  | REX
  | DPS
  | BOND
deriving DecidableEq, Repr

/-- Door state, the values of self.door_state. -/
inductive DoorState where
  | OPEN
  | CLOSED
deriving DecidableEq, Repr

/-- The configuration snapshot an operation sees: the values of the four
UI configuration variables at the time the operation runs. -/
structure Config where
  billing_partner : BillingPartner
  aux_type : AuxType
  aux_normally_open : Bool
  rte_count_enabled : Bool
deriving DecidableEq, Repr

/-- The controller state owned by RelayEmulatorApp.  lock_state is the
numeric encoding the source uses: 0 locked, 1 temporarily unlocked,
2 permanently unlocked.  Times are in milliseconds. -/
structure EmuState where
  lock_state : Nat
  rte_count : Nat
  door_state : DoorState
  unlock_start_time : Int
  unlock_duration : Int
  rte_override_active : Bool
  rte_override_start_time : Int
  rte_override_duration : Int
deriving DecidableEq, Repr

/-- The construction defaults set in RelayEmulatorApp.__init__
(lines 66-75 of src/relay_emulator.py). -/
def initState : EmuState where
  lock_state := 0
  rte_count := 0
  door_state := DoorState.CLOSED
  unlock_start_time := 0
  unlock_duration := 5000
  rte_override_active := false
  rte_override_start_time := 0
  rte_override_duration := 0

/-- Python str.lower() on the ASCII protocol strings the emulator uses
(Char.toLower lowers exactly the ASCII letters). -/
def lowerStr (s : String) : String :=
  String.mk (s.toList.map Char.toLower)

/-- Python str.upper() on the ASCII protocol strings the emulator uses. -/
def upperStr (s : String) : String :=
  String.mk (s.toList.map Char.toUpper)

/-- Python str.strip(): drop whitespace from both ends. -/
def stripStr (s : String) : String :=
  String.mk
    (((s.toList.dropWhile Char.isWhitespace).reverse.dropWhile
        Char.isWhitespace).reverse)

/-- Split a character list at the first occurrence of `c`, like Python's
str.split(c, 1): the part before the first `c`, and, when `c` occurs,
everything after that first occurrence. -/
def pySplitOnce (c : Char) : List Char → List Char × Option (List Char)
  | [] => ([], none)
  | x :: xs =>
    if x = c then ([], some xs)
    else
      let r := pySplitOnce c xs
      (x :: r.1, r.2)

/-- Numeric value of a list of decimal digits. -/
def digitsVal (l : List Char) : Nat :=
  l.foldl (fun n c => 10 * n + (c.toNat - 48)) 0

/-- Model of the Python built-in int() applied to a string: surrounding
whitespace is stripped, then an optional sign followed by at least one
decimal digit; anything else raises ValueError, modelled as none.
(Python 3 digit-group underscores are not modelled; no input in this
development or in the emulator's protocol uses them.) -/
def pyInt (s : String) : Option Int :=
  match (stripStr s).toList with
  | [] => none
  | c :: rest =>
    if c = '-' then
      if rest = [] then none
      else if rest.all Char.isDigit then some (-(digitsVal rest : Int)) else none
    else if c = '+' then
      if rest = [] then none
      else if rest.all Char.isDigit then some (digitsVal rest : Int) else none
    else if (c :: rest).all Char.isDigit then some (digitsVal (c :: rest) : Int)
    else none

/-- Duration parsing at the top of process_normal_commands (lines
386-395): duration defaults to 5; when the command contains a space it
is split at the FIRST space (cmd.split(' ', 1)); the command keeps the
part before that space and the ENTIRE remainder is passed to int(); on
success the value is clamped with max(1, min(3600, duration)), and on
ValueError the remainder is dropped and the default 5 stays.  Returns
(command-part, duration-in-seconds). -/
def parseCmdDuration (cmd : String) : String × Int :=
  match pySplitOnce ' ' cmd.toList with
  | (_, none) => (cmd, 5)
  | (c, some rest) =>
    match pyInt (String.mk rest) with
    | some d => (String.mk c, max 1 (min 3600 d))
    | none => (String.mk c, 5)

/-- The literal text of a door state, as the source stores it. -/
def DoorState.text : DoorState → String
  | DoorState.OPEN => "OPEN"
  | DoorState.CLOSED => "CLOSED"

/-- The time_remaining computation of send_status (lines 537-549):
remaining override time while the override is active, else remaining
unlock time while lock_state == 1, else 0; each remaining time is
computed only under the guard elapsed < duration (so the dividend is
positive and Lean's integer division agrees with Python's int()
truncation), and is 0 once elapsed reaches the duration. -/
def timeRemaining (now : Int) (s : EmuState) : Int :=
  if s.rte_override_active then
    let elapsed := now - s.rte_override_start_time
    if elapsed < s.rte_override_duration then
      (s.rte_override_duration - elapsed) / 1000
    else 0
  else if s.lock_state = 1 then
    let elapsed := now - s.unlock_start_time
    if elapsed < s.unlock_duration then
      (s.unlock_duration - elapsed) / 1000
    else 0
  else 0

/-- The status record send_status formats (lines 518-555):
STATUS,lock_state,rte_count,door-or-NA,time_remaining,override-flag. -/
def statusLine (now : Int) (cfg : Config) (s : EmuState) : String :=
  "STATUS," ++ toString s.lock_state ++ "," ++ toString s.rte_count ++ ","
    ++ (if cfg.aux_type = AuxType.DPS ∨ cfg.aux_type = AuxType.BOND then
          s.door_state.text
        else "NA")
    ++ "," ++ toString (timeRemaining now s) ++ ","
    ++ (if s.rte_override_active then "RTE_ACTIVE" else "NORMAL")

/-- send_status (lines 507-564): returns the lines written to the serial
port.  Nothing is written when the port is closed, and nothing is
written unless the billing partner is DFACS; otherwise exactly the
status record is written.  No controller state changes. -/
def send_status (ser : Bool) (now : Int) (cfg : Config) (s : EmuState) :
    List String :=
  if ser then
    if cfg.billing_partner = BillingPartner.DFACS then [statusLine now cfg s]
    else []
  else []

/-- unlock_door (lines 566-584): rejected (with a REJECTED line in DFACS
when the port is open) while the RTE override is active; otherwise sets
lock_state to 1, unlock_duration to duration seconds in milliseconds and
unlock_start_time to now, then sends status. -/
def unlock_door (ser : Bool) (now : Int) (cfg : Config) (duration : Int)
    (s : EmuState) : EmuState × List String :=
  if s.rte_override_active then
    (s, if cfg.billing_partner = BillingPartner.DFACS ∧ ser then
          ["REJECTED,RTE_OVERRIDE_ACTIVE"]
        else [])
  else
    let s1 := { s with
      lock_state := 1
      unlock_duration := duration * 1000
      unlock_start_time := now }
    (s1, send_status ser now cfg s1)

/-- process_normal_commands (lines 384-452): command handling when the
RTE override is not active.  The duration (and truncated command) come
from parseCmdDuration; then one if/elif chain per billing partner. -/
def process_normal_commands (ser : Bool) (now : Int) (cfg : Config)
    (cmd0 : String) (s : EmuState) : EmuState × List String :=
  let p := parseCmdDuration cmd0
  let cmd := p.1
  let duration := p.2
  match cfg.billing_partner with
  | BillingPartner.ABC =>
    if cmd = "0" ∧ s.lock_state = 0 then
      unlock_door ser now cfg duration s
    else if lowerStr cmd = "a" ∧ s.lock_state = 0 then
      let s1 := { s with lock_state := 2 }
      (s1, send_status ser now cfg s1)
    else if lowerStr cmd = "z" then
      let s1 := { s with lock_state := 0 }
      (s1, send_status ser now cfg s1)
    else (s, [])
  | BillingPartner.PEAK =>
    if (lowerStr cmd = "open sesame!" ∨ cmd = "0") ∧ s.lock_state = 0 then
      unlock_door ser now cfg duration s
    else if lowerStr cmd = "a" ∧ s.lock_state = 0 then
      let s1 := { s with lock_state := 2 }
      (s1, send_status ser now cfg s1)
    else if lowerStr cmd = "z" then
      let s1 := { s with lock_state := 0 }
      (s1, send_status ser now cfg s1)
    else (s, [])
  | BillingPartner.DFACS =>
    if (lowerStr cmd = "open sesame!" ∨ cmd = "0") ∧ s.lock_state = 0 then
      unlock_door ser now cfg duration s
    else if lowerStr cmd = "a" ∧ s.lock_state = 0 then
      let s1 := { s with lock_state := 2 }
      (s1, send_status ser now cfg s1)
    else if lowerStr cmd = "z" then
      let s1 := { s with lock_state := 0 }
      (s1, send_status ser now cfg s1)
    else if lowerStr cmd = "ack" then
      let s1 := if cfg.rte_count_enabled then { s with rte_count := 0 } else s
      (s1, send_status ser now cfg s1)
    else if lowerStr cmd = "status" then
      (s, send_status ser now cfg s)
    else (s, [])

/-- handle_command (lines 352-382): strips the incoming line; while the
RTE override is active a STATUS query (case-insensitive, checked before
any dialect logic) is answered with send_status and every other command
is dropped, with a REJECTED line written only in DFACS with the port
open; otherwise the command goes to process_normal_commands. -/
def handle_command (ser : Bool) (now : Int) (cfg : Config) (command : String)
    (s : EmuState) : EmuState × List String :=
  let cmd := stripStr command
  if s.rte_override_active then
    if upperStr cmd = "STATUS" then
      (s, send_status ser now cfg s)
    else
      (s, if cfg.billing_partner = BillingPartner.DFACS ∧ ser then
            ["REJECTED,RTE_OVERRIDE_ACTIVE"]
          else [])
  else
    process_normal_commands ser now cfg cmd s

/-- activate_rte_override (lines 454-481): sets the override active with
start now and duration 5000 ms, forces lock_state to 1 with the unlock
timer aliased to the override window, increments rte_count only when
counting is enabled, sends status and, in DFACS with the port open, the
ACTIVATED notification with the duration in whole seconds. -/
def activate_rte_override (ser : Bool) (now : Int) (cfg : Config)
    (s : EmuState) : EmuState × List String :=
  let s1 := { s with
    rte_override_active := true
    rte_override_start_time := now
    rte_override_duration := 5000
    lock_state := 1
    unlock_start_time := now
    unlock_duration := 5000
    rte_count := if cfg.rte_count_enabled then s.rte_count + 1 else s.rte_count }
  (s1, send_status ser now cfg s1 ++
    (if cfg.billing_partner = BillingPartner.DFACS ∧ ser then
      ["RTE_OVERRIDE,ACTIVATED," ++ toString (s1.rte_override_duration / 1000)]
     else []))

/-- deactivate_rte_override (lines 483-505): clears the override flag,
forces lock_state back to 0, resets unlock_duration to the default,
sends status and, in DFACS with the port open, the DEACTIVATED line. -/
def deactivate_rte_override (ser : Bool) (now : Int) (cfg : Config)
    (s : EmuState) : EmuState × List String :=
  let s1 := { s with
    rte_override_active := false
    lock_state := 0
    unlock_duration := 5000 }
  (s1, send_status ser now cfg s1 ++
    (if cfg.billing_partner = BillingPartner.DFACS ∧ ser then
      ["RTE_OVERRIDE,DEACTIVATED"]
     else []))

/-- trigger_rte (lines 586-596): the override activates only when the
auxiliary input type is RTE or REX and the lock is in state 0; any other
combination only logs and changes nothing. -/
def trigger_rte (ser : Bool) (now : Int) (cfg : Config) (s : EmuState) :
    EmuState × List String :=
  if cfg.aux_type = AuxType.RTE ∨ cfg.aux_type = AuxType.REX then
    if s.lock_state = 0 then activate_rte_override ser now cfg s
    else (s, [])
  else (s, [])

/-- handle_rte_override_timer (lines 330-337): when the override is
active and its window has elapsed, deactivate it. -/
def handle_rte_override_timer (ser : Bool) (now : Int) (cfg : Config)
    (s : EmuState) : EmuState × List String :=
  if s.rte_override_active ∧
      now - s.rte_override_start_time ≥ s.rte_override_duration then
    deactivate_rte_override ser now cfg s
  else (s, [])

/-- handle_unlock_timer (lines 339-350): when temporarily unlocked and
the unlock window has elapsed, relock and reset the duration default. -/
def handle_unlock_timer (ser : Bool) (now : Int) (cfg : Config)
    (s : EmuState) : EmuState × List String :=
  if s.lock_state = 1 ∧ now - s.unlock_start_time ≥ s.unlock_duration then
    let s1 := { s with lock_state := 0, unlock_duration := 5000 }
    (s1, send_status ser now cfg s1)
  else (s, [])

/-- toggle_door_state (lines 598-614): flips the door state, but only
when the auxiliary input type is DPS or BOND. -/
def toggle_door_state (ser : Bool) (now : Int) (cfg : Config)
    (s : EmuState) : EmuState × List String :=
  if cfg.aux_type = AuxType.DPS ∨ cfg.aux_type = AuxType.BOND then
    let s1 := { s with
      door_state := if s.door_state = DoorState.CLOSED then DoorState.OPEN
                    else DoorState.CLOSED }
    (s1, send_status ser now cfg s1)
  else (s, [])

/-- toggle_lock_state (lines 616-626): 0 becomes 2, anything else
becomes 0. -/
def toggle_lock_state (ser : Bool) (now : Int) (cfg : Config)
    (s : EmuState) : EmuState × List String :=
  let s1 := { s with lock_state := if s.lock_state = 0 then 2 else 0 }
  (s1, send_status ser now cfg s1)

/-- manual_unlock (lines 628-635): the duration entry text goes through
int(); on ValueError only an error is logged, otherwise the value is
clamped to [1, 3600] and unlock_door runs. -/
def manual_unlock (ser : Bool) (now : Int) (cfg : Config) (text : String)
    (s : EmuState) : EmuState × List String :=
  match pyInt text with
  | some d => unlock_door ser now cfg (max 1 (min 3600 d)) s
  | none => (s, [])

/-- Every operation the emulator offers that can touch the controller
state: an inbound serial line, the four manual-control buttons
(trigger_rte, toggle_door_state, toggle_lock_state, manual_unlock with
the duration entry text), and the per-tick timer checks of the
emulation loop.  The 1 Hz heartbeat only calls send_status, which
changes no state. -/
inductive Op where
  | serialCmd (line : String)
  | triggerRte
  | toggleDoor
  | toggleLock
  | manualUnlock (text : String)
  | overrideTick
  | unlockTick
  | statusHeartbeat
deriving Repr

/-- The controller state after one operation runs. -/
def step (ser : Bool) (now : Int) (cfg : Config) (op : Op) (s : EmuState) :
    EmuState :=
  match op with
  | Op.serialCmd line => (handle_command ser now cfg line s).1
  | Op.triggerRte => (trigger_rte ser now cfg s).1
  | Op.toggleDoor => (toggle_door_state ser now cfg s).1
  | Op.toggleLock => (toggle_lock_state ser now cfg s).1
  | Op.manualUnlock text => (manual_unlock ser now cfg text s).1
  | Op.overrideTick => (handle_rte_override_timer ser now cfg s).1
  | Op.unlockTick => (handle_unlock_timer ser now cfg s).1
  | Op.statusHeartbeat => s

/-
Concrete configurations and states used by witnesses and
counterexamples below.
-/

def cfgABC : Config := ⟨BillingPartner.ABC, AuxType.RTE, true, true⟩

def cfgPEAK : Config := ⟨BillingPartner.PEAK, AuxType.RTE, true, true⟩

def cfgDFACS : Config := ⟨BillingPartner.DFACS, AuxType.RTE, true, true⟩

/-
Helper lemmas shared by the claim theorems.
-/

/-- Setting lock_state to 0 on a state already in lock_state 0 is the
identity. -/
theorem set_lock_zero_id (s : EmuState) (h : s.lock_state = 0) :
    ({ s with lock_state := 0 } : EmuState) = s := by
  cases s
  simp_all

/-- C1: In PEAK and in DFACS, an inbound line whose stripped text is the
phrase open sesame! (in any case) while LOCKED with no override is NOT a
timed unlock: handle_command first splits the line at its first space,
so the dialect chain sees the command "open" with the discarded token
"sesame!", matches nothing, and leaves the state unchanged with no
output.  The dead comparison against the full phrase sits at lines
415/430 of src/relay_emulator.py. -/
theorem open_sesame_line_is_ignored :
    parseCmdDuration "open sesame!" = ("open", 5) ∧
    handle_command true 0 cfgPEAK "open sesame!" initState = (initState, []) ∧
    handle_command true 0 cfgDFACS "open sesame!" initState = (initState, []) ∧
    handle_command true 0 cfgDFACS "OPEN SESAME!" initState = (initState, []) := by
  refine ⟨by decide, by decide, by decide, by decide⟩

/-- C3: trigger_rte activates the override exactly when the auxiliary
input type is RTE or REX and the lock state is LOCKED; on activation the
override becomes active with start now and duration 5000 ms, the lock
state is forced to TEMP_UNLOCKED and the unlock timer is aliased to the
override window; any other combination changes nothing and writes
nothing. -/
theorem trigger_rte_activation_spec (ser : Bool) (now : Int) (cfg : Config)
    (s : EmuState) :
    ((cfg.aux_type = AuxType.RTE ∨ cfg.aux_type = AuxType.REX) →
      s.lock_state = 0 →
      ((trigger_rte ser now cfg s).1.rte_override_active = true ∧
       (trigger_rte ser now cfg s).1.rte_override_duration = 5000 ∧
       (trigger_rte ser now cfg s).1.rte_override_start_time = now ∧
       (trigger_rte ser now cfg s).1.lock_state = 1 ∧
       (trigger_rte ser now cfg s).1.unlock_start_time =
         (trigger_rte ser now cfg s).1.rte_override_start_time ∧
       (trigger_rte ser now cfg s).1.unlock_duration =
         (trigger_rte ser now cfg s).1.rte_override_duration)) ∧
    (¬((cfg.aux_type = AuxType.RTE ∨ cfg.aux_type = AuxType.REX) ∧
        s.lock_state = 0) →
      trigger_rte ser now cfg s = (s, [])) := by
  constructor
  · intro h1 h2
    simp [trigger_rte, activate_rte_override, if_pos h1, if_pos h2]
  · intro h
    by_cases h1 : cfg.aux_type = AuxType.RTE ∨ cfg.aux_type = AuxType.REX
    · have h2 : ¬ s.lock_state = 0 := fun h2 => h ⟨h1, h2⟩
      simp [trigger_rte, if_pos h1, if_neg h2]
    · simp [trigger_rte, if_neg h1]

/-- C4: the RTE counter after trigger_rte: on a successful activation it
grows by exactly one iff counting is enabled in the configuration
snapshot, and a no-op trigger never changes it. -/
theorem trigger_rte_count_spec (ser : Bool) (now : Int) (cfg : Config)
    (s : EmuState) :
    ((cfg.aux_type = AuxType.RTE ∨ cfg.aux_type = AuxType.REX) →
      s.lock_state = 0 →
      (trigger_rte ser now cfg s).1.rte_count =
        (if cfg.rte_count_enabled then s.rte_count + 1 else s.rte_count)) ∧
    (¬((cfg.aux_type = AuxType.RTE ∨ cfg.aux_type = AuxType.REX) ∧
        s.lock_state = 0) →
      (trigger_rte ser now cfg s).1.rte_count = s.rte_count) := by
  constructor
  · intro h1 h2
    simp [trigger_rte, activate_rte_override, if_pos h1, if_pos h2]
  · intro h
    by_cases h1 : cfg.aux_type = AuxType.RTE ∨ cfg.aux_type = AuxType.REX
    · have h2 : ¬ s.lock_state = 0 := fun h2 => h ⟨h1, h2⟩
      simp [trigger_rte, if_pos h1, if_neg h2]
    · simp [trigger_rte, if_neg h1]

/-- C3 witness: a trigger with auxiliary type RTE from the locked
initial state activates a 5000 ms override and forces the lock to
TEMP_UNLOCKED. -/
theorem trigger_rte_activation_spec_witness :
    (trigger_rte true 100 cfgDFACS initState).1.rte_override_active = true ∧
    (trigger_rte true 100 cfgDFACS initState).1.rte_override_duration = 5000 ∧
    (trigger_rte true 100 cfgDFACS initState).1.lock_state = 1 := by
  have h := (trigger_rte_activation_spec true 100 cfgDFACS initState).1
    (by decide) (by decide)
  exact ⟨h.1, h.2.1, h.2.2.2.1⟩

/-- C4 witness: a successful activation with counting enabled takes the
counter from 0 to 1. -/
theorem trigger_rte_count_spec_witness :
    (trigger_rte true 100 cfgDFACS initState).1.rte_count =
      (if cfgDFACS.rte_count_enabled then initState.rte_count + 1
       else initState.rte_count) :=
  (trigger_rte_count_spec true 100 cfgDFACS initState).1 (by decide) (by decide)

/-- A state in which the RTE override is active, used by witnesses. -/
def sOverride : EmuState :=
  ⟨1, 1, DoorState.CLOSED, 0, 5000, true, 0, 5000⟩

/-- C2: with the port open and the override active, handle_command
changes no controller state for any line; a non-status line makes it
write exactly the rejection line when the billing partner is DFACS and
nothing otherwise (so the rejection is written iff DFACS); a status
query is still served through send_status. -/
theorem override_blocks_non_status (now : Int) (cfg : Config) (line : String)
    (s : EmuState) (hov : s.rte_override_active = true) :
    (handle_command true now cfg line s).1 = s ∧
    (upperStr (stripStr line) ≠ "STATUS" →
      (handle_command true now cfg line s).2 =
        (if cfg.billing_partner = BillingPartner.DFACS then
          ["REJECTED,RTE_OVERRIDE_ACTIVE"]
         else []) ∧
      ((handle_command true now cfg line s).2 =
          ["REJECTED,RTE_OVERRIDE_ACTIVE"] ↔
        cfg.billing_partner = BillingPartner.DFACS)) ∧
    (upperStr (stripStr line) = "STATUS" →
      (handle_command true now cfg line s).2 = send_status true now cfg s) := by
  unfold handle_command
  rw [if_pos (by simp [hov])]
  by_cases hst : upperStr (stripStr line) = "STATUS"
  · rw [if_pos hst]
    refine ⟨rfl, fun hns => absurd hst hns, fun _ => rfl⟩
  · rw [if_neg hst]
    refine ⟨rfl, fun _ => ?_, fun hs => absurd hs hst⟩
    by_cases hd : cfg.billing_partner = BillingPartner.DFACS
    · simp [hd]
    · simp [hd]

/-- C2 witness: the command z during an active override in DFACS is
rejected with the structured line and the state survives untouched. -/
theorem override_blocks_non_status_witness :
    (handle_command true 100 cfgDFACS "z" sOverride).1 = sOverride ∧
    (upperStr (stripStr "z") ≠ "STATUS" →
      (handle_command true 100 cfgDFACS "z" sOverride).2 =
        (if cfgDFACS.billing_partner = BillingPartner.DFACS then
          ["REJECTED,RTE_OVERRIDE_ACTIVE"]
         else []) ∧
      ((handle_command true 100 cfgDFACS "z" sOverride).2 =
          ["REJECTED,RTE_OVERRIDE_ACTIVE"] ↔
        cfgDFACS.billing_partner = BillingPartner.DFACS)) ∧
    (upperStr (stripStr "z") = "STATUS" →
      (handle_command true 100 cfgDFACS "z" sOverride).2 =
        send_status true 100 cfgDFACS sOverride) :=
  override_blocks_non_status 100 cfgDFACS "z" sOverride (by decide)

/-- C10: during an active override a status query is recognized
case-insensitively before any dialect logic, in every dialect: the state
is unchanged and the output is exactly what send_status produces — which
is empty whenever the billing partner is not DFACS, so in ABC and PEAK
the query produces neither a status line nor a rejection. -/
theorem status_query_during_override (ser : Bool) (now : Int) (cfg : Config)
    (line : String) (s : EmuState) (hov : s.rte_override_active = true)
    (hst : upperStr (stripStr line) = "STATUS") :
    handle_command ser now cfg line s = (s, send_status ser now cfg s) ∧
    (cfg.billing_partner ≠ BillingPartner.DFACS →
      handle_command ser now cfg line s = (s, [])) := by
  unfold handle_command
  rw [if_pos (by simp [hov]), if_pos hst]
  refine ⟨rfl, fun hd => ?_⟩
  unfold send_status
  cases ser
  · simp
  · simp [hd]

/-- C10 witness: a lower-case status query during an override in ABC is
accepted, changes nothing and emits nothing. -/
theorem status_query_during_override_witness :
    handle_command true 100 cfgABC "status" sOverride =
      (sOverride, send_status true 100 cfgABC sOverride) ∧
    (cfgABC.billing_partner ≠ BillingPartner.DFACS →
      handle_command true 100 cfgABC "status" sOverride = (sOverride, [])) :=
  status_query_during_override true 100 cfgABC "status" sOverride
    (by decide) (by decide)

/-- Any line whose command token lowercases to z, handled with no
override active, sets lock_state to 0 and changes nothing else, in every
dialect: the dialect chains treat the lock command identically and the
earlier branches cannot match a token that lowercases to z. -/
theorem z_cmd_locks (ser : Bool) (now : Int) (cfg : Config) (line : String)
    (s : EmuState) (hov : s.rte_override_active = false)
    (hz : lowerStr (parseCmdDuration (stripStr line)).1 = "z") :
    (handle_command ser now cfg line s).1 = { s with lock_state := 0 } := by
  have h0 : ¬((parseCmdDuration (stripStr line)).1 = "0") := by
    intro h; rw [h] at hz; exact absurd hz (by decide)
  have hos : ¬(lowerStr (parseCmdDuration (stripStr line)).1 = "open sesame!") := by
    rw [hz]; decide
  have ha : ¬(lowerStr (parseCmdDuration (stripStr line)).1 = "a") := by
    rw [hz]; decide
  unfold handle_command
  rw [if_neg (by simp [hov])]
  unfold process_normal_commands
  obtain ⟨bp, aux, ano, cnt⟩ := cfg
  cases bp
  · dsimp only
    rw [if_neg fun h => h0 h.1, if_neg fun h => ha h.1, if_pos hz]
  · dsimp only
    rw [if_neg fun h => h.1.elim hos h0, if_neg fun h => ha h.1, if_pos hz]
  · dsimp only
    rw [if_neg fun h => h.1.elim hos h0, if_neg fun h => ha h.1, if_pos hz]

/-- C7: in every dialect, with no override active, a lock command (any
line whose command token lowercases to z) yields lock_state LOCKED from
any lock state, and a second lock command applied to the result — under
any dialect and any letter case — leaves the whole state unchanged. -/
theorem lock_command_locks_and_idempotent (ser ser2 : Bool) (now now2 : Int)
    (cfg cfg2 : Config) (line line2 : String) (s : EmuState)
    (hov : s.rte_override_active = false)
    (hz : lowerStr (parseCmdDuration (stripStr line)).1 = "z")
    (hz2 : lowerStr (parseCmdDuration (stripStr line2)).1 = "z") :
    (handle_command ser now cfg line s).1.lock_state = 0 ∧
    (handle_command ser2 now2 cfg2 line2
        (handle_command ser now cfg line s).1).1 =
      (handle_command ser now cfg line s).1 := by
  have h1 := z_cmd_locks ser now cfg line s hov hz
  have hov1 : (handle_command ser now cfg line s).1.rte_override_active = false := by
    rw [h1]; simpa using hov
  have h2 := z_cmd_locks ser2 now2 cfg2 line2 _ hov1 hz2
  refine ⟨by rw [h1], ?_⟩
  rw [h2, h1]

/-- A permanently unlocked state with no override, used by witnesses. -/
def sPermUnlocked : EmuState :=
  ⟨2, 0, DoorState.CLOSED, 0, 5000, false, 0, 0⟩

/-- C7 witness: the upper-case lock command with a trailing duration
token locks from PERMANENT_UNLOCKED in ABC, and a plain z in PEAK then
changes nothing. -/
theorem lock_command_locks_and_idempotent_witness :
    (handle_command true 5 cfgABC "Z 30" sPermUnlocked).1.lock_state = 0 ∧
    (handle_command false 6 cfgPEAK "z"
        (handle_command true 5 cfgABC "Z 30" sPermUnlocked).1).1 =
      (handle_command true 5 cfgABC "Z 30" sPermUnlocked).1 :=
  lock_command_locks_and_idempotent true false 5 6 cfgABC cfgPEAK
    "Z 30" "z" sPermUnlocked (by decide) (by decide) (by decide)

/-- C5 amended: with no override active, the DFACS ack command resets
rte_count to 0 only when rte_count_enabled is true in the configuration
snapshot; when counting is disabled the counter (and everything else)
is left as it was, and the override flag is never touched. -/
theorem ack_resets_count_iff_enabled (ser : Bool) (now : Int) (cfg : Config)
    (s : EmuState) (hd : cfg.billing_partner = BillingPartner.DFACS)
    (hov : s.rte_override_active = false) :
    (handle_command ser now cfg "ack" s).1 =
      (if cfg.rte_count_enabled then { s with rte_count := 0 } else s) := by
  unfold handle_command
  rw [if_neg (by simp [hov])]
  unfold process_normal_commands
  obtain ⟨bp, aux, ano, cnt⟩ := cfg
  simp only [Config.billing_partner] at hd
  subst hd
  have hp : parseCmdDuration (stripStr "ack") = ("ack", 5) := by decide
  dsimp only
  rw [hp]
  rw [if_neg fun h => absurd h.1 (by decide), if_neg fun h => absurd h.1 (by decide),
    if_neg (by decide), if_pos (show lowerStr ("ack", (5 : Int)).1 = "ack" by decide)]

/-- A locked, override-free state with a nonzero RTE count. -/
def sCount1 : EmuState :=
  ⟨0, 1, DoorState.CLOSED, 0, 5000, false, 0, 0⟩

/-- A DFACS configuration with RTE counting disabled. -/
def cfgDFACSNoCount : Config :=
  ⟨BillingPartner.DFACS, AuxType.RTE, true, false⟩

/-- C5 counterexample: in DFACS with rte_count_enabled false and a prior
count of 1, the ack command leaves rte_count at 1, not 0: the reset is
gated on the counting toggle (line 444 of src/relay_emulator.py). -/
theorem ack_with_disabled_count_cex :
    (handle_command true 0 cfgDFACSNoCount "ack" sCount1).1.rte_count = 1 ∧
    ¬((handle_command true 0 cfgDFACSNoCount "ack" sCount1).1.rte_count = 0) := by
  refine ⟨by decide, by decide⟩

/-- C5 witness: with counting enabled the ack command does reset a
count of 1 to 0 and leaves the rest of the state alone. -/
theorem ack_resets_count_iff_enabled_witness :
    (handle_command true 0 cfgDFACS "ack" sCount1).1 =
      (if cfgDFACS.rte_count_enabled then { sCount1 with rte_count := 0 }
       else sCount1) :=
  ack_resets_count_iff_enabled true 0 cfgDFACS sCount1 (by decide) (by decide)

/-- The token after the LAST space of a string, when the string contains
a space at all. -/
def lastSpaceToken (s : String) : Option String :=
  match pySplitOnce ' ' s.toList.reverse with
  | (tok, some _) => some (String.mk tok.reverse)
  | (_, none) => none

/-- Written from claim C6's words, not from the source, for comparison
with parseCmdDuration: split off the TRAILING token of a line containing
a space and interpret it as the duration, clamping an integer token to
[1, 3600] and falling back to the default 5 for a non-integer token. -/
def claimTrailingDuration (cmd : String) : Int :=
  match lastSpaceToken cmd with
  | some tok =>
    match pyInt tok with
    | some d => max 1 (min 3600 d)
    | none => 5
  | none => 5

/-- C6 counterexample: on the line 0 10 20 the trailing token is the
integer 20, so the claim's reading gives duration 20; the source splits
at the FIRST space and feeds the whole remainder 10 20 to int(), which
raises, so the code uses the default 5. -/
theorem trailing_token_duration_cex :
    claimTrailingDuration "0 10 20" = 20 ∧
    (parseCmdDuration "0 10 20").2 = 5 ∧
    ¬((parseCmdDuration "0 10 20").2 = claimTrailingDuration "0 10 20") := by
  refine ⟨by decide, by decide, by decide⟩

/-- pySplitOnce splits exactly at the first occurrence of the
character. -/
theorem pySplitOnce_append (l r : List Char) (h : ' ' ∉ l) :
    pySplitOnce ' ' (l ++ ' ' :: r) = (l, some r) := by
  induction l with
  | nil => simp [pySplitOnce]
  | cons x xs ih =>
    have hx : ¬(x = ' ') := fun he => h (he ▸ List.mem_cons_self x xs)
    have hxs : ' ' ∉ xs := fun hm => h (List.mem_cons_of_mem _ hm)
    simp [pySplitOnce, hx, ih hxs]

/-- C6 amended: for a line with a space, the parser splits at the FIRST
space: the command is the text before that space and the ENTIRE
remainder is the duration token — clamped to [1, 3600] when the whole
remainder parses as an integer, and otherwise (including a remainder
with further spaces in it) discarded in favor of the default 5. -/
theorem duration_from_first_space_remainder (pre rest : String)
    (h : ' ' ∉ pre.toList) :
    parseCmdDuration (pre ++ " " ++ rest) =
      (pre, match pyInt rest with
            | some d => max 1 (min 3600 d)
            | none => 5) := by
  have hl : (pre ++ " " ++ rest).toList = pre.toList ++ (' ' :: rest.toList) := by
    show (pre ++ " " ++ rest).data = pre.data ++ (' ' :: rest.data)
    rw [String.data_append, String.data_append]
    simp
  unfold parseCmdDuration
  rw [hl, pySplitOnce_append _ _ h]
  have hmkr : String.mk rest.toList = rest := rfl
  have hmkp : String.mk pre.toList = pre := rfl
  dsimp only
  rw [hmkr, hmkp]
  cases hpi : pyInt rest <;> simp [hpi]

/-- C6 witness: the line 0 9999 parses to the command 0 with the
over-limit duration 9999 clamped to 3600. -/
theorem duration_from_first_space_remainder_witness :
    parseCmdDuration ("0" ++ " " ++ "9999") =
      ("0", match pyInt "9999" with
            | some d => max 1 (min 3600 d)
            | none => 5) :=
  duration_from_first_space_remainder "0" "9999" (by decide)

/-- C8: the time_remaining field of every status record send_status can
emit is never negative and always comes from the authoritative timer:
the floored remaining override time while the override is active, else
the floored remaining unlock time while TEMP_UNLOCKED, else exactly 0;
and every line send_status emits is the statusLine record built from
that value. -/
theorem status_time_remaining_spec (ser : Bool) (now : Int) (cfg : Config)
    (s : EmuState) :
    0 ≤ timeRemaining now s ∧
    timeRemaining now s =
      (if s.rte_override_active then
        max 0 ((s.rte_override_duration - (now - s.rte_override_start_time)) / 1000)
      else if s.lock_state = 1 then
        max 0 ((s.unlock_duration - (now - s.unlock_start_time)) / 1000)
      else 0) ∧
    (∀ l ∈ send_status ser now cfg s, l = statusLine now cfg s) := by
  have key : timeRemaining now s =
      (if s.rte_override_active then
        max 0 ((s.rte_override_duration - (now - s.rte_override_start_time)) / 1000)
      else if s.lock_state = 1 then
        max 0 ((s.unlock_duration - (now - s.unlock_start_time)) / 1000)
      else 0) := by
    unfold timeRemaining
    dsimp only
    by_cases ho : s.rte_override_active = true
    · rw [if_pos ho, if_pos ho]
      by_cases hlt : now - s.rte_override_start_time < s.rte_override_duration
      · rw [if_pos hlt]
        exact (max_eq_right (Int.ediv_nonneg (by omega) (by norm_num))).symm
      · rw [if_neg hlt]
        refine (max_eq_left ?_).symm
        have h2 := Int.ediv_le_ediv (show (0:Int) < 1000 by norm_num)
          (show s.rte_override_duration - (now - s.rte_override_start_time) ≤ 0 by omega)
        simpa using h2
    · rw [if_neg ho, if_neg ho]
      by_cases hl : s.lock_state = 1
      · rw [if_pos hl, if_pos hl]
        by_cases hlt : now - s.unlock_start_time < s.unlock_duration
        · rw [if_pos hlt]
          exact (max_eq_right (Int.ediv_nonneg (by omega) (by norm_num))).symm
        · rw [if_neg hlt]
          refine (max_eq_left ?_).symm
          have h2 := Int.ediv_le_ediv (show (0:Int) < 1000 by norm_num)
            (show s.unlock_duration - (now - s.unlock_start_time) ≤ 0 by omega)
          simpa using h2
      · rw [if_neg hl, if_neg hl]
  refine ⟨?_, key, ?_⟩
  · rw [key]
    by_cases ho : s.rte_override_active = true
    · rw [if_pos ho]; exact le_max_left 0 _
    · rw [if_neg ho]
      by_cases hl : s.lock_state = 1
      · rw [if_pos hl]; exact le_max_left 0 _
      · rw [if_neg hl]
  · intro l hm
    unfold send_status at hm
    cases ser
    · simp at hm
    · by_cases hd : cfg.billing_partner = BillingPartner.DFACS
      · rw [if_pos rfl, if_pos hd] at hm
        simpa using hm
      · rw [if_pos rfl, if_neg hd] at hm
        simp at hm

/-- No serial command ever changes the door state: handle_command only
writes lock, counter, timer and override fields. -/
theorem handle_command_preserves_door (ser : Bool) (now : Int) (cfg : Config)
    (line : String) (s : EmuState) :
    (handle_command ser now cfg line s).1.door_state = s.door_state := by
  unfold handle_command process_normal_commands unlock_door
  obtain ⟨bp, aux, ano, cnt⟩ := cfg
  cases bp <;> dsimp only <;> (repeat' split) <;> rfl

/-- The manual-unlock button never changes the door state either. -/
theorem manual_unlock_preserves_door (ser : Bool) (now : Int) (cfg : Config)
    (text : String) (s : EmuState) :
    (manual_unlock ser now cfg text s).1.door_state = s.door_state := by
  unfold manual_unlock unlock_door
  (repeat' split) <;> rfl

/-- A state differing from the construction defaults in the RTE count
and the door state, reachable by enabling counting, triggering the RTE
override with a DPS door toggle in between, and letting it expire. -/
def sMut : EmuState :=
  ⟨0, 1, DoorState.OPEN, 0, 5000, false, 0, 0⟩

/-- C9 counterexample: no operation the emulator offers is a reset: for
every operation there is a configuration and a reachable state from
which the operation does not re-establish the construction defaults (no
operation both zeroes the RTE counter and closes the door). -/
theorem no_reset_operation_cex :
    ¬ ∃ op : Op, ∀ (ser : Bool) (now : Int) (cfg : Config) (s : EmuState),
        step ser now cfg op s = initState := by
  rintro ⟨op, h⟩
  cases op with
  | serialCmd line =>
    have h2 := h true 0 cfgDFACS sMut
    have h3 : (step true 0 cfgDFACS (Op.serialCmd line) sMut).door_state =
        DoorState.OPEN :=
      handle_command_preserves_door true 0 cfgDFACS line sMut
    rw [h2] at h3
    exact absurd h3 (by decide)
  | manualUnlock text =>
    have h2 := h true 0 cfgDFACS sMut
    have h3 : (step true 0 cfgDFACS (Op.manualUnlock text) sMut).door_state =
        DoorState.OPEN :=
      manual_unlock_preserves_door true 0 cfgDFACS text sMut
    rw [h2] at h3
    exact absurd h3 (by decide)
  | triggerRte => exact absurd (h true 0 cfgDFACS sMut) (by decide)
  | toggleDoor => exact absurd (h true 0 cfgDFACS sMut) (by decide)
  | toggleLock => exact absurd (h true 0 cfgDFACS sMut) (by decide)
  | overrideTick => exact absurd (h true 0 cfgDFACS sMut) (by decide)
  | unlockTick => exact absurd (h true 0 cfgDFACS sMut) (by decide)
  | statusHeartbeat => exact absurd (h true 0 cfgDFACS sMut) (by decide)

/-- C9 amended: the code provides no reset(): every operation it offers
fails, from some configuration and state, to bring the controller back
to the construction defaults; those defaults are established only by
RelayEmulatorApp.__init__ at process start. -/
theorem no_operation_restores_defaults (op : Op) :
    ∃ (ser : Bool) (now : Int) (cfg : Config) (s : EmuState),
      step ser now cfg op s ≠ initState := by
  refine ⟨true, 0, cfgDFACS, sMut, ?_⟩
  cases op with
  | serialCmd line =>
    intro h2
    have h3 : (step true 0 cfgDFACS (Op.serialCmd line) sMut).door_state =
        DoorState.OPEN :=
      handle_command_preserves_door true 0 cfgDFACS line sMut
    rw [h2] at h3
    exact absurd h3 (by decide)
  | manualUnlock text =>
    intro h2
    have h3 : (step true 0 cfgDFACS (Op.manualUnlock text) sMut).door_state =
        DoorState.OPEN :=
      manual_unlock_preserves_door true 0 cfgDFACS text sMut
    rw [h2] at h3
    exact absurd h3 (by decide)
  | triggerRte => decide
  | toggleDoor => decide
  | toggleLock => decide
  | overrideTick => decide
  | unlockTick => decide
  | statusHeartbeat => decide

end RelayEmu
